import Mathlib

/-
Verification of the concurrent HTTP load-test engine in src/main.py.

The engine consists of three parts:
  * fetch_with_metrics (src/main.py:139-161): one request with optional
    pre-delay and timeout, normalised into a result dictionary;
  * run_load_test (src/main.py:163-172): dispatches
    concurrent_users * requests_per_user executions and gathers them;
  * the metric computations of process_and_display_results
    (src/main.py:200-272): valid/successful partition, success rate,
    throughput, mean/median/min/max and the P95/P99 percentiles computed
    with Python 3.11 statistics.quantiles (method "exclusive").

Network I/O is shallowly embedded: the behaviour of the server for one
dispatched request is a ServerBehavior value, and a run is parametrised by
an environment assigning a behaviour (and a wall-clock instant) to every
dispatch index.  Real time is modelled by an explicit clock value threaded
through fetch_with_metrics: time.perf_counter() at entry is `now`, the
asyncio.sleep advances the clock by delay/1000, and a response that takes
requestSecs advances it further.  All numeric quantities are rationals.

Python's sorted() is modelled by insertion sort: on a linearly ordered
type every sorting algorithm produces the same list, so this is
extensionally the source's behaviour.
-/

namespace StressTest

/-- Status of one request: an HTTP status code, or one of the two sentinel
strings "timeout" / "error" used by src/main.py:159,161. -/
inductive Status where
  | code (n : ℕ)
  | timeout
  | error
deriving DecidableEq

/-- One result dictionary, as built by fetch_with_metrics.  Keys that a
given path does not set are `none`: in the source the timeout and error
dictionaries carry no "content_length" and no "timestamp" key. -/
structure RequestResult where
  status : Status
  response_time : Option ℚ
  content_length : Option ℕ := none
  success : Bool
  error : Option String := none
  timestamp : Option ℚ := none
deriving DecidableEq

/-- How the server behaves for one dispatched request: it answers with a
status and a body after `requestSecs` seconds, it never answers inside any
finite budget, or the attempt fails with a non-timeout exception
(DNS failure, connection refused, ...). -/
inductive ServerBehavior where
  | responds (statusCode : ℕ) (bodyLen : ℕ) (requestSecs : ℚ)
  | hangs
  | fails (msg : String)
deriving DecidableEq

/-- Embedding of fetch_with_metrics (src/main.py:139-161).  `now` is the
value of time.perf_counter() on entry (the source sets start_time there,
line 141, before the optional sleep on line 145).  The aiohttp total
timeout applies to the request/response exchange only, so a `responds`
behaviour times out exactly when its duration exceeds the budget; the
sleep is outside the timeout scope.  The returned record mirrors the three
return dictionaries of the source, including which keys each one sets. -/
def fetch_with_metrics (url : String) (timeout delayMs : ℚ)
    (b : ServerBehavior) (now : ℚ) : RequestResult :=
  let start_time := now
  let afterDelay := if 0 < delayMs then now + delayMs / 1000 else now
  match b with
  | .responds st bl s =>
      if timeout < s then
        { status := .timeout, response_time := some (timeout * 1000),
          success := false, error := some "Timeout" }
      else
        let end_time := afterDelay + s
        { status := .code st
          response_time := some ((end_time - start_time) * 1000)
          content_length := some bl
          success := decide (200 ≤ st ∧ st < 300)
          timestamp := some end_time }
  | .hangs =>
      { status := .timeout, response_time := some (timeout * 1000),
        success := false, error := some "Timeout" }
  | .fails msg =>
      { status := .error, response_time := none,
        success := false, error := some msg }

/-- Embedding of run_load_test (src/main.py:163-172): one
fetch_with_metrics execution per dispatch index, all gathered into a list.
`env` gives the server behaviour seen by dispatch `i`, `clock` the
perf-counter value at its start. -/
def run_load_test (url : String) (concurrent_users requests_per_user : ℕ)
    (timeout delay : ℚ) (env : ℕ → ServerBehavior) (clock : ℕ → ℚ) :
    List RequestResult :=
  (List.range (concurrent_users * requests_per_user)).map
    (fun i => fetch_with_metrics url timeout delay (env i) (clock i))

/-- src/main.py:204 — results whose "response_time" value is not None
(every element of the gathered list is a dictionary here, since
fetch_with_metrics never raises). -/
def valid_results (results : List RequestResult) : List RequestResult :=
  results.filter (fun r => r.response_time.isSome)

/-- src/main.py:212 — the latency sample: the response_time values of the
valid results. -/
def response_times (results : List RequestResult) : List ℚ :=
  (valid_results results).filterMap (fun r => r.response_time)

/-- src/main.py:205 — valid results flagged successful. -/
def successful_results (results : List RequestResult) : List RequestResult :=
  (valid_results results).filter (fun r => r.success)

/-- Python sorted() on rationals. -/
def pySorted (l : List ℚ) : List ℚ := l.insertionSort (· ≤ ·)

/-- Python min() over a list (only ever applied to non-empty samples;
the empty case is given a junk value). -/
def pyMin : List ℚ → ℚ
  | [] => 0
  | x :: xs => xs.foldl min x

/-- Python max() over a list (only ever applied to non-empty samples). -/
def pyMax : List ℚ → ℚ
  | [] => 0
  | x :: xs => xs.foldl max x

/-- statistics.mean. -/
def pyMean (l : List ℚ) : ℚ := l.sum / l.length

/-- statistics.median (Lib/statistics.py:549-570): middle element of the
sorted data, or the average of the two middle elements. -/
def pyMedian (l : List ℚ) : ℚ :=
  if (pySorted l).length % 2 = 1 then (pySorted l).getD ((pySorted l).length / 2) 0
  else ((pySorted l).getD ((pySorted l).length / 2 - 1) 0
        + (pySorted l).getD ((pySorted l).length / 2) 0) / 2

/-- The index j of statistics.quantiles, method "exclusive"
(Lib/statistics.py:803-813): rescale i to m/n with m = ld + 1, then clamp
to 1 .. ld - 1. -/
def jdx (ld n i : ℕ) : ℕ :=
  if i * (ld + 1) / n < 1 then 1
  else if ld - 1 < i * (ld + 1) / n then ld - 1
  else i * (ld + 1) / n

/-- The interpolation weight delta = i*m - j*n of statistics.quantiles,
computed from the clamped j (exactly as in Lib/statistics.py:809, where
delta is taken after the clamp, so it can exceed n). -/
def deltaOf (ld n i : ℕ) : ℤ :=
  (i : ℤ) * (ld + 1) - (jdx ld n i : ℤ) * n

/-- The interpolated cut point (data[j-1]*(n-delta) + data[j]*delta) / n
of statistics.quantiles for one index i, over an already sorted list. -/
def interpPoint (d : List ℚ) (n i : ℕ) : ℚ :=
  (d.getD (jdx d.length n i - 1) 0 * ((n : ℚ) - (deltaOf d.length n i : ℚ))
    + d.getD (jdx d.length n i) 0 * (deltaOf d.length n i : ℚ)) / (n : ℚ)

/-- statistics.quantiles(data, n) with the default method "exclusive":
the n-1 cut points for i = 1 .. n-1 over the sorted data. -/
def quantilesExcl (data : List ℚ) (n : ℕ) : List ℚ :=
  (List.range (n - 1)).map (fun k => interpPoint (pySorted data) n (k + 1))

/-- The summary statistics computed by process_and_display_results
(src/main.py:211-272). -/
structure TestSummary where
  total_requests : ℕ
  success_count : ℕ
  success_rate : ℚ
  avg_response_time : ℚ
  throughput : ℚ
  pmin : ℚ
  pmedian : ℚ
  p95 : ℚ
  p99 : ℚ
  pmax : ℚ
deriving DecidableEq

/-- Embedding of the metric computations of process_and_display_results
(src/main.py:200-272), as a pure function of the gathered results and the
measured total duration.  When there are no valid results the source
prints an error and returns without statistics (lines 207-209); this is
the `none` outcome.  The percentile fields follow lines 261-263:
quantiles(..., n=100)[94] when the sample has at least 20 points else the
sample maximum, and [98] when it has at least 50 points else the maximum. -/
def summarize (results : List RequestResult) (total_duration : ℚ) :
    Option TestSummary :=
  let valid := valid_results results
  if valid.isEmpty then none
  else
    let rts := response_times results
    let success_count := (valid.filter (fun r => r.success)).length
    let total := results.length
    some {
      total_requests := total
      success_count := success_count
      success_rate := if 0 < total then (success_count : ℚ) / (total : ℚ) * 100 else 0
      avg_response_time := if rts.isEmpty then 0 else pyMean rts
      throughput := if 0 < total_duration then (total : ℚ) / total_duration else 0
      pmin := pyMin rts
      pmedian := pyMedian rts
      p95 := if 20 ≤ rts.length then (quantilesExcl rts 100).getD 94 0 else pyMax rts
      p99 := if 50 ≤ rts.length then (quantilesExcl rts 100).getD 98 0 else pyMax rts
      pmax := pyMax rts }

/-- A well-formed result record, per the contract of the executor: a
successful record carries a 2xx numeric status and a measured time, a
timeout record is the documented timeout sentinel, and an error record has
no measurement and a non-empty message. -/
def WellFormed (r : RequestResult) : Prop :=
  (r.success = true →
      ∃ n, r.status = Status.code n ∧ 200 ≤ n ∧ n < 300 ∧ r.response_time ≠ none) ∧
  (r.status = Status.timeout →
      r.success = false ∧ r.response_time ≠ none ∧ r.error = some "Timeout") ∧
  (r.status = Status.error →
      r.success = false ∧ r.response_time = none ∧ r.error ≠ none)

/-- A successful 2xx result record with a given measured latency; used to
feed the aggregator on concrete inputs. -/
def okResult (q : ℚ) : RequestResult :=
  { status := .code 200, response_time := some q, success := true }

/-- Fifty results with latencies 0, 1, ..., 49 ms. -/
def sample50 : List RequestResult :=
  (List.range 50).map (fun i : ℕ => okResult (i : ℚ))

/-! ### Helper lemmas about the Python min/max/median/quantile embeddings -/

theorem foldl_min_le_init (l : List ℚ) (a : ℚ) : l.foldl min a ≤ a := by
  induction l generalizing a with
  | nil => exact le_refl a
  | cons x xs ih => exact le_trans (ih (min a x)) (min_le_left a x)

theorem foldl_min_le_mem {x : ℚ} (l : List ℚ) (a : ℚ) (h : x ∈ l) : l.foldl min a ≤ x := by
  induction l generalizing a with
  | nil => cases h
  | cons y ys ih =>
      rcases List.mem_cons.mp h with rfl | hy
      · exact le_trans (foldl_min_le_init ys (min a x)) (min_le_right a x)
      · exact ih (min a y) hy

theorem pyMin_le_of_mem {x : ℚ} {l : List ℚ} (h : x ∈ l) : pyMin l ≤ x := by
  cases l with
  | nil => cases h
  | cons y ys =>
      rcases List.mem_cons.mp h with rfl | hy
      · exact foldl_min_le_init ys x
      · exact foldl_min_le_mem ys y hy

theorem init_le_foldl_max (l : List ℚ) (a : ℚ) : a ≤ l.foldl max a := by
  induction l generalizing a with
  | nil => exact le_refl a
  | cons x xs ih => exact le_trans (le_max_left a x) (ih (max a x))

theorem mem_le_foldl_max {x : ℚ} (l : List ℚ) (a : ℚ) (h : x ∈ l) : x ≤ l.foldl max a := by
  induction l generalizing a with
  | nil => cases h
  | cons y ys ih =>
      rcases List.mem_cons.mp h with rfl | hy
      · exact le_trans (le_max_right a x) (init_le_foldl_max ys (max a x))
      · exact ih (max a y) hy

theorem le_pyMax_of_mem {x : ℚ} {l : List ℚ} (h : x ∈ l) : x ≤ pyMax l := by
  cases l with
  | nil => cases h
  | cons y ys =>
      rcases List.mem_cons.mp h with rfl | hy
      · exact init_le_foldl_max ys x
      · exact mem_le_foldl_max ys y hy

theorem pySorted_sorted (l : List ℚ) : (pySorted l).Sorted (· ≤ ·) :=
  List.sorted_insertionSort _ l

theorem pySorted_perm (l : List ℚ) : (pySorted l).Perm l :=
  List.perm_insertionSort _ l

theorem pySorted_length (l : List ℚ) : (pySorted l).length = l.length :=
  (pySorted_perm l).length_eq

theorem pySorted_getD_mono (l : List ℚ) {i j : ℕ} (hij : i ≤ j)
    (hj : j < (pySorted l).length) :
    (pySorted l).getD i 0 ≤ (pySorted l).getD j 0 := by
  have hi : i < (pySorted l).length := lt_of_le_of_lt hij hj
  rw [List.getD_eq_getElem _ _ hi, List.getD_eq_getElem _ _ hj]
  have h := (pySorted_sorted l).rel_get_of_le
    (a := ⟨i, hi⟩) (b := ⟨j, hj⟩) (Fin.mk_le_mk.mpr hij)
  simpa [List.get_eq_getElem] using h

theorem pySorted_getD_mem (l : List ℚ) {j : ℕ} (hj : j < (pySorted l).length) :
    (pySorted l).getD j 0 ∈ l := by
  rw [List.getD_eq_getElem _ _ hj]
  exact (pySorted_perm l).mem_iff.mp (List.getElem_mem hj)

theorem pyMedian_le_getD (l : List ℚ) (hl : l ≠ []) {k : ℕ}
    (hk1 : (pySorted l).length / 2 ≤ k) (hk2 : k < (pySorted l).length) :
    pyMedian l ≤ (pySorted l).getD k 0 := by
  have hpos : 0 < (pySorted l).length := by
    rw [pySorted_length]; exact List.length_pos.mpr hl
  unfold pyMedian
  split
  · exact pySorted_getD_mono l hk1 hk2
  · have hmid : (pySorted l).length / 2 < (pySorted l).length :=
      Nat.div_lt_self hpos (by norm_num)
    have hm := pySorted_getD_mono l (Nat.sub_le _ 1) hmid
    have hk := pySorted_getD_mono l hk1 hk2
    linarith

theorem pyMin_le_pyMedian (l : List ℚ) (hl : l ≠ []) : pyMin l ≤ pyMedian l := by
  have hpos : 0 < (pySorted l).length := by
    rw [pySorted_length]; exact List.length_pos.mpr hl
  have hmid : (pySorted l).length / 2 < (pySorted l).length :=
    Nat.div_lt_self hpos (by norm_num)
  unfold pyMedian
  split
  · exact pyMin_le_of_mem (pySorted_getD_mem l hmid)
  · have h1 := pyMin_le_of_mem
      (pySorted_getD_mem l (lt_of_le_of_lt (Nat.sub_le _ 1) hmid))
    have h2 := pyMin_le_of_mem (pySorted_getD_mem l hmid)
    linarith

theorem pyMedian_le_pyMax (l : List ℚ) (hl : l ≠ []) : pyMedian l ≤ pyMax l := by
  have hpos : 0 < (pySorted l).length := by
    rw [pySorted_length]; exact List.length_pos.mpr hl
  have hk2 : (pySorted l).length - 1 < (pySorted l).length := by omega
  exact le_trans (pyMedian_le_getD l hl (by omega) hk2)
    (le_pyMax_of_mem (pySorted_getD_mem l hk2))

theorem response_times_eq_filterMap (l : List RequestResult) :
    response_times l = l.filterMap (fun r => r.response_time) := by
  unfold response_times valid_results
  induction l with
  | nil => rfl
  | cons r rsl ih =>
      cases hr : r.response_time with
      | none => simpa [List.filter_cons, List.filterMap_cons, hr] using ih
      | some q => simpa [List.filter_cons, List.filterMap_cons, hr] using ih

theorem response_times_length (rs : List RequestResult) :
    (response_times rs).length = (valid_results rs).length := by
  have key : ∀ l : List RequestResult, (∀ r ∈ l, r.response_time.isSome) →
      (l.filterMap (fun r => r.response_time)).length = l.length := by
    intro l
    induction l with
    | nil => intro _; rfl
    | cons r rsl ih =>
        intro h
        obtain ⟨q, hq⟩ := Option.isSome_iff_exists.mp (h r (List.mem_cons_self r rsl))
        simp [List.filterMap_cons, hq, ih (fun x hx => h x (List.mem_cons_of_mem r hx))]
  exact key (valid_results rs) (fun r hr => (List.mem_filter.mp hr).2)

theorem response_times_ne_nil {rs : List RequestResult}
    (h : valid_results rs ≠ []) : response_times rs ≠ [] := by
  intro hc
  apply h
  have hlen := response_times_length rs
  rw [hc] at hlen
  exact List.length_eq_zero.mp hlen.symm

/-- The body of summarize, spelled out once so claim proofs can case on
the emptiness guard. -/
theorem summarize_eq_ite (rs : List RequestResult) (dur : ℚ) :
    summarize rs dur =
      if (valid_results rs).isEmpty then none
      else some {
        total_requests := rs.length
        success_count := ((valid_results rs).filter (fun r => r.success)).length
        success_rate := if 0 < rs.length then
            (((valid_results rs).filter (fun r => r.success)).length : ℚ) / (rs.length : ℚ) * 100
          else 0
        avg_response_time := if (response_times rs).isEmpty then 0 else pyMean (response_times rs)
        throughput := if 0 < dur then (rs.length : ℚ) / dur else 0
        pmin := pyMin (response_times rs)
        pmedian := pyMedian (response_times rs)
        p95 := if 20 ≤ (response_times rs).length then
            (quantilesExcl (response_times rs) 100).getD 94 0 else pyMax (response_times rs)
        p99 := if 50 ≤ (response_times rs).length then
            (quantilesExcl (response_times rs) 100).getD 98 0 else pyMax (response_times rs)
        pmax := pyMax (response_times rs) } := rfl

theorem quantilesExcl_getD (data : List ℚ) (n k : ℕ) (hk : k < n - 1) :
    (quantilesExcl data n).getD k 0 = interpPoint (pySorted data) n (k + 1) := by
  unfold quantilesExcl
  have hlen : k < ((List.range (n - 1)).map
      (fun k => interpPoint (pySorted data) n (k + 1))).length := by simpa using hk
  rw [List.getD_eq_getElem _ _ hlen]
  simp

theorem interp_ge_left (d : List ℚ) (n i : ℕ) (hn : (0 : ℚ) < (n : ℚ))
    (hab : d.getD (jdx d.length n i - 1) 0 ≤ d.getD (jdx d.length n i) 0)
    (hd : 0 ≤ deltaOf d.length n i) :
    d.getD (jdx d.length n i - 1) 0 ≤ interpPoint d n i := by
  unfold interpPoint
  rw [le_div_iff₀ hn]
  have hq : (0 : ℚ) ≤ (deltaOf d.length n i : ℚ) := by exact_mod_cast hd
  nlinarith [mul_nonneg hq (sub_nonneg.mpr hab)]

theorem interp_le_right (d : List ℚ) (n i : ℕ) (hn : (0 : ℚ) < (n : ℚ))
    (hab : d.getD (jdx d.length n i - 1) 0 ≤ d.getD (jdx d.length n i) 0)
    (hd : deltaOf d.length n i ≤ (n : ℤ)) :
    interpPoint d n i ≤ d.getD (jdx d.length n i) 0 := by
  unfold interpPoint
  rw [div_le_iff₀ hn]
  have hq : (deltaOf d.length n i : ℚ) ≤ (n : ℚ) := by exact_mod_cast hd
  nlinarith [mul_nonneg (sub_nonneg.mpr hq) (sub_nonneg.mpr hab)]

theorem j95_facts (ld : ℕ) (h : 20 ≤ ld) :
    1 ≤ jdx ld 100 95 ∧ jdx ld 100 95 ≤ ld - 1 ∧ ld / 2 + 1 ≤ jdx ld 100 95 ∧
    0 ≤ deltaOf ld 100 95 ∧ deltaOf ld 100 95 ≤ 100 := by
  have h1 : ¬ (95 * (ld + 1) / 100 < 1) := by omega
  have h2 : ¬ (ld - 1 < 95 * (ld + 1) / 100) := by omega
  unfold deltaOf jdx
  simp only [if_neg h1, if_neg h2]
  refine ⟨by omega, by omega, by omega, by omega, by omega⟩

theorem j99_facts (ld : ℕ) (h : 50 ≤ ld) :
    jdx ld 100 95 + 1 ≤ jdx ld 100 99 ∧ jdx ld 100 99 ≤ ld - 1 ∧
    1 ≤ jdx ld 100 99 ∧ 0 ≤ deltaOf ld 100 99 := by
  have h1 : ¬ (95 * (ld + 1) / 100 < 1) := by omega
  have h2 : ¬ (ld - 1 < 95 * (ld + 1) / 100) := by omega
  have h3 : ¬ (99 * (ld + 1) / 100 < 1) := by omega
  unfold deltaOf jdx
  simp only [if_neg h1, if_neg h2, if_neg h3]
  by_cases h4 : ld - 1 < 99 * (ld + 1) / 100
  · simp only [if_pos h4]
    refine ⟨by omega, by omega, by omega, by omega⟩
  · simp only [if_neg h4]
    refine ⟨by omega, by omega, by omega, by omega⟩

theorem median_le_interp95 (s : List ℚ) (hs : s ≠ []) (h20 : 20 ≤ s.length) :
    pyMedian s ≤ interpPoint (pySorted s) 100 95 := by
  have hlen : (pySorted s).length = s.length := pySorted_length s
  have h20d : 20 ≤ (pySorted s).length := by omega
  obtain ⟨hj1, hj2, hj3, hd0, hd100⟩ := j95_facts (pySorted s).length h20d
  have hjlt : jdx (pySorted s).length 100 95 < (pySorted s).length := by omega
  have hj1lt : jdx (pySorted s).length 100 95 - 1 < (pySorted s).length := by omega
  have hmono := pySorted_getD_mono s (Nat.sub_le (jdx (pySorted s).length 100 95) 1) hjlt
  have h1 : pyMedian s ≤ (pySorted s).getD (jdx (pySorted s).length 100 95 - 1) 0 :=
    pyMedian_le_getD s hs (by omega) hj1lt
  exact le_trans h1 (interp_ge_left (pySorted s) 100 95 (by norm_num) hmono hd0)

theorem interp95_le_pyMax (s : List ℚ) (h20 : 20 ≤ s.length) :
    interpPoint (pySorted s) 100 95 ≤ pyMax s := by
  have hlen : (pySorted s).length = s.length := pySorted_length s
  have h20d : 20 ≤ (pySorted s).length := by omega
  obtain ⟨hj1, hj2, hj3, hd0, hd100⟩ := j95_facts (pySorted s).length h20d
  have hjlt : jdx (pySorted s).length 100 95 < (pySorted s).length := by omega
  have hmono := pySorted_getD_mono s (Nat.sub_le (jdx (pySorted s).length 100 95) 1) hjlt
  exact le_trans (interp_le_right (pySorted s) 100 95 (by norm_num) hmono hd100)
    (le_pyMax_of_mem (pySorted_getD_mem s hjlt))

theorem interp95_le_interp99 (s : List ℚ) (h50 : 50 ≤ s.length) :
    interpPoint (pySorted s) 100 95 ≤ interpPoint (pySorted s) 100 99 := by
  have hlen : (pySorted s).length = s.length := pySorted_length s
  have h50d : 50 ≤ (pySorted s).length := by omega
  have h20d : 20 ≤ (pySorted s).length := by omega
  obtain ⟨hj1, hj2, hj3, hd0, hd100⟩ := j95_facts (pySorted s).length h20d
  obtain ⟨hlt, hj99₂, hj99₁, hd99⟩ := j99_facts (pySorted s).length h50d
  have hjlt95 : jdx (pySorted s).length 100 95 < (pySorted s).length := by omega
  have hjlt99 : jdx (pySorted s).length 100 99 < (pySorted s).length := by omega
  have hmono95 := pySorted_getD_mono s (Nat.sub_le (jdx (pySorted s).length 100 95) 1) hjlt95
  have hmono99 := pySorted_getD_mono s (Nat.sub_le (jdx (pySorted s).length 100 99) 1) hjlt99
  have e1 := interp_le_right (pySorted s) 100 95 (by norm_num) hmono95 hd100
  have e2 : (pySorted s).getD (jdx (pySorted s).length 100 95) 0 ≤
      (pySorted s).getD (jdx (pySorted s).length 100 99 - 1) 0 :=
    pySorted_getD_mono s (by omega) (by omega)
  have e3 := interp_ge_left (pySorted s) 100 99 (by norm_num) hmono99 hd99
  exact le_trans e1 (le_trans e2 e3)

theorem fetch_wf (url : String) (t dm : ℚ) (b : ServerBehavior) (now : ℚ) :
    WellFormed (fetch_with_metrics url t dm b now) := by
  cases b with
  | responds st bl s =>
      by_cases hts : t < s
      · refine ⟨?_, ?_, ?_⟩ <;> simp [fetch_with_metrics, hts, WellFormed]
      · refine ⟨?_, ?_, ?_⟩
        · intro hsucc
          simp only [fetch_with_metrics, if_neg hts] at hsucc ⊢
          exact ⟨st, rfl, (of_decide_eq_true hsucc).1, (of_decide_eq_true hsucc).2, by simp⟩
        · intro hcon
          simp [fetch_with_metrics, if_neg hts] at hcon
        · intro hcon
          simp [fetch_with_metrics, if_neg hts] at hcon
  | hangs => refine ⟨?_, ?_, ?_⟩ <;> simp [fetch_with_metrics, WellFormed]
  | fails msg => refine ⟨?_, ?_, ?_⟩ <;> simp [fetch_with_metrics, WellFormed]

/-! ### The claims -/

/-- C1: run_load_test returns one result per dispatched execution, so the
returned list has length concurrentUsers * requestsPerUser, and the entry
at index i is exactly the result of the i-th dispatch. -/
theorem C1_result_count (url : String) (cu rpu : ℕ) (t dm : ℚ)
    (env : ℕ → ServerBehavior) (clock : ℕ → ℚ) :
    (run_load_test url cu rpu t dm env clock).length = cu * rpu ∧
    ∀ i : ℕ, (run_load_test url cu rpu t dm env clock)[i]? =
      if i < cu * rpu then some (fetch_with_metrics url t dm (env i) (clock i))
      else none := by
  constructor
  · simp [run_load_test]
  · intro i
    by_cases hi : i < cu * rpu
    · rw [if_pos hi]
      unfold run_load_test
      rw [List.getElem?_map, List.getElem?_range hi]
      rfl
    · rw [if_neg hi]
      apply List.getElem?_eq_none
      simp only [run_load_test, List.length_map, List.length_range]
      omega

/-- C2: contrary to the spec, the delay DOES count toward the measured
response time — the timer starts on line 141, before the sleep on line
145.  With delayMs = 100 and a server that answers in 1/20 s (50 ms) the
code records 150 ms, not the 50 ms the claim requires. -/
theorem C2_delay_is_measured :
    (fetch_with_metrics "u" 10 100 (ServerBehavior.responds 200 0 (1/20)) 0).response_time
        = some 150 ∧
    (1/20 : ℚ) * 1000 = 50 ∧ (150 : ℚ) ≠ 50 := by
  refine ⟨?_, by norm_num, by norm_num⟩
  norm_num [fetch_with_metrics]

/-- C3 counterexample: a timed-out request passes the valid_results filter
(its response_time is the non-null sentinel timeout*1000), so its sentinel
value IS in the latency sample used for percentiles. -/
theorem C3_counterexample :
    (fetch_with_metrics "u" 1 0 ServerBehavior.hangs 0).status = Status.timeout ∧
    response_times [fetch_with_metrics "u" 1 0 ServerBehavior.hangs 0] = [1000] := by
  refine ⟨rfl, ?_⟩
  norm_num [response_times, valid_results, fetch_with_metrics,
    List.filter_cons, List.filterMap_cons]

/-- C3 amended: the latency sample is the multiset of ALL non-null
responseTimeMs values — only error results (null responseTimeMs) are
excluded; a timed-out request contributes its sentinel timeout*1000. -/
theorem C3_amended (rs : List RequestResult) (url : String) (t dm now : ℚ) :
    response_times rs = rs.filterMap (fun r => r.response_time) ∧
    response_times [fetch_with_metrics url t dm ServerBehavior.hangs now] = [t * 1000] :=
  ⟨response_times_eq_filterMap rs, rfl⟩

/-- C4: the success rate is 100 * |successful| / |results| with the
denominator over ALL dispatched results, and the aggregator yields the
distinguished no-data outcome (none) exactly when there is no valid
result. -/
theorem C4_success_rate (rs : List RequestResult) (dur : ℚ) :
    Option.map (fun S => S.success_rate) (summarize rs dur) =
      if valid_results rs = [] then none
      else some (100 * ((successful_results rs).length : ℚ) / (rs.length : ℚ)) := by
  rw [summarize_eq_ite]
  by_cases h : (valid_results rs).isEmpty
  · rw [if_pos h, if_pos (List.isEmpty_iff.mp h)]
    rfl
  · have hne : valid_results rs ≠ [] := fun hc => h (by rw [hc]; rfl)
    rw [if_neg h, if_neg hne]
    have hrs : rs ≠ [] := by
      intro hc
      subst hc
      exact hne rfl
    have hlen : 0 < rs.length := List.length_pos.mpr hrs
    simp only [Option.map_some']
    rw [if_pos hlen]
    unfold successful_results
    congr 1
    ring

/-- C6: the executor never raises: every server behaviour (response,
hang, non-timeout failure) maps to a well-formed result record, and every
element of a gathered batch is well-formed, so one failing request cannot
abort the batch. -/
theorem C6_never_raises (url : String) (t dm now : ℚ) (b : ServerBehavior)
    (cu rpu : ℕ) (env : ℕ → ServerBehavior) (clock : ℕ → ℚ) :
    WellFormed (fetch_with_metrics url t dm b now) ∧
    (run_load_test url cu rpu t dm env clock).Forall WellFormed := by
  refine ⟨fetch_wf url t dm b now, ?_⟩
  rw [List.forall_iff_forall_mem]
  intro r hr
  simp only [run_load_test, List.mem_map] at hr
  obtain ⟨i, _, rfl⟩ := hr
  exact fetch_wf url t dm (env i) (clock i)

/-- C7: the sentinel results: a request that outlives the budget, or a
server that never answers, yields statusCode "timeout" with
responseTimeMs = timeout*1000, success = false and errorMessage
"Timeout"; any other failure yields statusCode "error" with null
responseTimeMs, success = false, and the cause as errorMessage. -/
theorem C7_failure_sentinels (url : String) (t dm now s : ℚ) (st bl : ℕ)
    (msg : String) (h : t < s) :
    ((fetch_with_metrics url t dm (ServerBehavior.responds st bl s) now).status = Status.timeout ∧
     (fetch_with_metrics url t dm (ServerBehavior.responds st bl s) now).response_time = some (t * 1000) ∧
     (fetch_with_metrics url t dm (ServerBehavior.responds st bl s) now).success = false ∧
     (fetch_with_metrics url t dm (ServerBehavior.responds st bl s) now).error = some "Timeout") ∧
    ((fetch_with_metrics url t dm ServerBehavior.hangs now).status = Status.timeout ∧
     (fetch_with_metrics url t dm ServerBehavior.hangs now).response_time = some (t * 1000) ∧
     (fetch_with_metrics url t dm ServerBehavior.hangs now).success = false ∧
     (fetch_with_metrics url t dm ServerBehavior.hangs now).error = some "Timeout") ∧
    ((fetch_with_metrics url t dm (ServerBehavior.fails msg) now).status = Status.error ∧
     (fetch_with_metrics url t dm (ServerBehavior.fails msg) now).response_time = none ∧
     (fetch_with_metrics url t dm (ServerBehavior.fails msg) now).success = false ∧
     (fetch_with_metrics url t dm (ServerBehavior.fails msg) now).error = some msg) := by
  refine ⟨?_, ⟨rfl, rfl, rfl, rfl⟩, ⟨rfl, rfl, rfl, rfl⟩⟩
  simp [fetch_with_metrics, if_pos h]

theorem C7_failure_sentinels_witness :
    ((fetch_with_metrics "u" 1 0 (ServerBehavior.responds 200 0 2) 0).status = Status.timeout ∧
     (fetch_with_metrics "u" 1 0 (ServerBehavior.responds 200 0 2) 0).response_time = some (1 * 1000) ∧
     (fetch_with_metrics "u" 1 0 (ServerBehavior.responds 200 0 2) 0).success = false ∧
     (fetch_with_metrics "u" 1 0 (ServerBehavior.responds 200 0 2) 0).error = some "Timeout") ∧
    ((fetch_with_metrics "u" 1 0 ServerBehavior.hangs 0).status = Status.timeout ∧
     (fetch_with_metrics "u" 1 0 ServerBehavior.hangs 0).response_time = some (1 * 1000) ∧
     (fetch_with_metrics "u" 1 0 ServerBehavior.hangs 0).success = false ∧
     (fetch_with_metrics "u" 1 0 ServerBehavior.hangs 0).error = some "Timeout") ∧
    ((fetch_with_metrics "u" 1 0 (ServerBehavior.fails "boom") 0).status = Status.error ∧
     (fetch_with_metrics "u" 1 0 (ServerBehavior.fails "boom") 0).response_time = none ∧
     (fetch_with_metrics "u" 1 0 (ServerBehavior.fails "boom") 0).success = false ∧
     (fetch_with_metrics "u" 1 0 (ServerBehavior.fails "boom") 0).error = some "boom") :=
  C7_failure_sentinels "u" 1 0 0 2 200 0 "boom" (by norm_num)

/-- C9 counterexample: the timeout-path result carries no timestamp — the
source dictionary on line 159 has no "timestamp" key — refuting the claim
that every outcome path records a capture instant. -/
theorem C9_counterexample :
    (fetch_with_metrics "u" 1 0 ServerBehavior.hangs 0).timestamp = none := rfl

/-- C9 amended: a result carries a timestamp exactly when it comes from
the response-received path (numeric status); timeout and error results
carry none. -/
theorem C9_amended (url : String) (t dm now : ℚ) (b : ServerBehavior) :
    ((fetch_with_metrics url t dm b now).timestamp ≠ none ↔
      ∃ n, (fetch_with_metrics url t dm b now).status = Status.code n) := by
  cases b with
  | responds st bl s =>
      by_cases hts : t < s
      · simp [fetch_with_metrics, hts]
      · simp [fetch_with_metrics, hts]
  | hangs => simp [fetch_with_metrics]
  | fails msg => simp [fetch_with_metrics]

/-- C10: whether an execution ends in the timeout sentinel depends only on
the server behaviour and the timeout budget, never on the pre-request
delay or the clock: the sleep happens outside the ClientTimeout scope.
Concretely, with a 1 s budget, a 1000 ms delay and a 3/4 s server, the
total wall time 7/4 s exceeds the budget yet the result is a 200, not a
timeout. -/
theorem C10_delay_outside_timeout (url : String) (t dm now now2 : ℚ)
    (b : ServerBehavior) :
    ((fetch_with_metrics url t dm b now).status = Status.timeout ↔
      (fetch_with_metrics url t 0 b now2).status = Status.timeout) ∧
    (fetch_with_metrics "u" 1 1000 (ServerBehavior.responds 200 0 (3/4)) 0).status
      = Status.code 200 ∧
    (fetch_with_metrics "u" 1 1000 (ServerBehavior.responds 200 0 (3/4)) 0).timestamp
      = some (7/4) ∧
    (1 : ℚ) < 7/4 := by
  refine ⟨?_, ?_, ?_, by norm_num⟩
  · cases b with
    | responds st bl s => by_cases hts : t < s <;> simp [fetch_with_metrics, hts]
    | hangs => simp [fetch_with_metrics]
    | fails msg => simp [fetch_with_metrics]
  · norm_num [fetch_with_metrics]
  · norm_num [fetch_with_metrics]

/-- C5: the percentile policy of lines 261-263: below 20 valid samples
the reported P95 is the sample maximum, below 50 the reported P99 is the
sample maximum; at or above those sizes the respective value is the
rank-interpolated cut point (i = 95 resp. 99 of quantiles(n=100)) over
the sorted sample. -/
theorem C5_small_sample_policy (rs : List RequestResult) (dur : ℚ)
    (S : TestSummary) (hS : summarize rs dur = some S) :
    (S.p95 = if (response_times rs).length < 20 then pyMax (response_times rs)
      else interpPoint (pySorted (response_times rs)) 100 95) ∧
    (S.p99 = if (response_times rs).length < 50 then pyMax (response_times rs)
      else interpPoint (pySorted (response_times rs)) 100 99) := by
  rw [summarize_eq_ite] at hS
  by_cases h : (valid_results rs).isEmpty
  · rw [if_pos h] at hS; cases hS
  · rw [if_neg h] at hS
    injection hS with hS
    subst hS
    constructor
    · dsimp only
      by_cases h20 : 20 ≤ (response_times rs).length
      · rw [if_pos h20, if_neg (by omega : ¬ (response_times rs).length < 20)]
        exact quantilesExcl_getD (response_times rs) 100 94 (by norm_num)
      · rw [if_neg h20, if_pos (by omega : (response_times rs).length < 20)]
    · dsimp only
      by_cases h50 : 50 ≤ (response_times rs).length
      · rw [if_pos h50, if_neg (by omega : ¬ (response_times rs).length < 50)]
        exact quantilesExcl_getD (response_times rs) 100 98 (by norm_num)
      · rw [if_neg h50, if_pos (by omega : (response_times rs).length < 50)]

/-- The summary the aggregator produces for the single successful 5 ms
result. -/
def summaryOk5 : TestSummary :=
  { total_requests := 1, success_count := 1, success_rate := 100,
    avg_response_time := 5, throughput := 1, pmin := 5, pmedian := 5,
    p95 := 5, p99 := 5, pmax := 5 }

theorem summarize_ok5 : summarize [okResult 5] 1 = some summaryOk5 := by
  rw [summarize_eq_ite]
  norm_num [summaryOk5, okResult, valid_results, response_times, pyMean,
    pyMedian, pySorted, pyMin, pyMax, List.filter_cons, List.filterMap_cons]

theorem C5_small_sample_policy_witness :
    (summaryOk5.p95 = if (response_times [okResult 5]).length < 20
        then pyMax (response_times [okResult 5])
        else interpPoint (pySorted (response_times [okResult 5])) 100 95) ∧
    (summaryOk5.p99 = if (response_times [okResult 5]).length < 50
        then pyMax (response_times [okResult 5])
        else interpPoint (pySorted (response_times [okResult 5])) 100 99) :=
  C5_small_sample_policy [okResult 5] 1 summaryOk5 summarize_ok5

set_option maxRecDepth 4000 in
/-- C8 counterexample: for the 50-point sample 0..49 ms the reported P99
is 49.49 — strictly above the reported maximum 49 — because
statistics.quantiles clamps j to ld-1 but computes delta from the
unclamped rank (Lib/statistics.py:807-809), extrapolating past the last
point.  So min ≤ median ≤ p95 ≤ p99 ≤ max is false as stated. -/
theorem C8_counterexample :
    Option.map (fun S => S.p99) (summarize sample50 1) = some (4949/100) ∧
    Option.map (fun S => S.pmax) (summarize sample50 1) = some 49 ∧
    ¬ ((4949 : ℚ)/100 ≤ 49) := by
  have hrt : response_times sample50 = (List.range 50).map (fun i : ℕ => (i : ℚ)) := rfl
  have hlen : (response_times sample50).length = 50 := by
    rw [hrt, List.length_map, List.length_range]
  have hne : (valid_results sample50).isEmpty = false := rfl
  have hsort : pySorted ((List.range 50).map (fun i : ℕ => (i : ℚ)))
      = (List.range 50).map (fun i : ℕ => (i : ℚ)) := rfl
  have hmaplen : ((List.range 50).map (fun i : ℕ => (i : ℚ))).length = 50 := by
    rw [List.length_map, List.length_range]
  have hj : jdx 50 100 99 = 49 := by decide
  have hd : deltaOf 50 100 99 = 149 := by decide
  have g48 : ((List.range 50).map (fun i : ℕ => (i : ℚ))).getD 48 0 = 48 := rfl
  have g49 : ((List.range 50).map (fun i : ℕ => (i : ℚ))).getD 49 0 = 49 := rfl
  refine ⟨?_, ?_, by norm_num⟩
  · rw [summarize_eq_ite]
    simp only [hne, Bool.false_eq_true, if_false, Option.map_some', Option.some.injEq]
    rw [hlen, if_pos (by norm_num), quantilesExcl_getD _ _ _ (by norm_num), hrt, hsort]
    unfold interpPoint
    rw [hmaplen, (by rfl : (98 : ℕ) + 1 = 99), hj, hd,
      (by rfl : (49 : ℕ) - 1 = 48), g48, g49]
    norm_num
  · rw [summarize_eq_ite]
    simp only [hne, Bool.false_eq_true, if_false, Option.map_some', Option.some.injEq]
    rw [hrt]
    rfl

/-- C8 amended: for every non-empty latency sample the reported
statistics satisfy min ≤ median ≤ p95 ≤ p99 and p95 ≤ max; the final
inequality p99 ≤ max of the claim does not hold in general (it fails for
samples of size 50-99 whose two largest values differ). -/
theorem C8_amended (rs : List RequestResult) (dur : ℚ) (S : TestSummary)
    (hS : summarize rs dur = some S) :
    S.pmin ≤ S.pmedian ∧ S.pmedian ≤ S.p95 ∧ S.p95 ≤ S.p99 ∧ S.p95 ≤ S.pmax := by
  rw [summarize_eq_ite] at hS
  by_cases h : (valid_results rs).isEmpty
  · rw [if_pos h] at hS; cases hS
  · rw [if_neg h] at hS
    injection hS with hS
    subst hS
    have hvne : valid_results rs ≠ [] := fun hc => by rw [hc] at h; exact h rfl
    have hne : response_times rs ≠ [] := response_times_ne_nil hvne
    dsimp only
    refine ⟨pyMin_le_pyMedian _ hne, ?_, ?_, ?_⟩
    · by_cases h20 : 20 ≤ (response_times rs).length
      · rw [if_pos h20, quantilesExcl_getD _ _ _ (by norm_num)]
        exact median_le_interp95 _ hne h20
      · rw [if_neg h20]
        exact pyMedian_le_pyMax _ hne
    · by_cases h50 : 50 ≤ (response_times rs).length
      · rw [if_pos (by omega : 20 ≤ (response_times rs).length), if_pos h50,
          quantilesExcl_getD _ _ _ (by norm_num), quantilesExcl_getD _ _ _ (by norm_num)]
        exact interp95_le_interp99 _ h50
      · rw [if_neg h50]
        by_cases h20 : 20 ≤ (response_times rs).length
        · rw [if_pos h20, quantilesExcl_getD _ _ _ (by norm_num)]
          exact interp95_le_pyMax _ h20
        · rw [if_neg h20]
    · by_cases h20 : 20 ≤ (response_times rs).length
      · rw [if_pos h20, quantilesExcl_getD _ _ _ (by norm_num)]
        exact interp95_le_pyMax _ h20
      · rw [if_neg h20]

theorem C8_amended_witness :
    summaryOk5.pmin ≤ summaryOk5.pmedian ∧ summaryOk5.pmedian ≤ summaryOk5.p95 ∧
    summaryOk5.p95 ≤ summaryOk5.p99 ∧ summaryOk5.p95 ≤ summaryOk5.pmax :=
  C8_amended [okResult 5] 1 summaryOk5 summarize_ok5

end StressTest
